import Mathlib

/-!
Verification development for the RaveDigest stream-pipeline core.

Each definition below is a shallow embedding of one function of the
repository, translated from the Python source file named in its doc
comment.  Machine reals used for delays are embedded as rationals;
Python exceptions are modelled by a numeric identity together with an
explicit classification of which exception classes a handler catches.
-/

namespace RaveDigest

/-- Python exception values, identified by a numeric tag.  A predicate
of type `PyExc → Bool` plays the role of an exception-class tuple such
as `retryable_exceptions`: it answers whether a raised exception is an
instance of one of the given classes. -/
abbrev PyExc := Nat

/-! ## shared/utils/retry.py -/

/-- Embedding of class `RetryConfig` (shared/utils/retry.py, lines 24-40):
the five fields the retry loop consults.  Delays are rationals. -/
structure RetryConfig where
  maxRetries : Nat
  baseDelay : ℚ
  maxDelay : ℚ
  backoffFactor : ℚ
  jitter : Bool
deriving Repr, DecidableEq

/-- Default values of `ServiceSettings` (shared/config/settings.py):
`max_retries` defaults to 3. -/
def settingsMaxRetries : Nat := 3

/-- Default of `ServiceSettings.retry_delay` (shared/config/settings.py): 1.0 s. -/
def settingsRetryDelay : ℚ := 1

/-- Default of `ServiceSettings.retry_backoff_factor` (shared/config/settings.py): 2.0. -/
def settingsRetryBackoffFactor : ℚ := 2

/-- Default of `ServiceSettings.cosine_similarity_threshold`
(shared/config/settings.py): 0.6. -/
def settingsCosineSimilarityThreshold : ℚ := 6 / 10

/-- Python `x or d` applied to an optional numeric argument, as used by the
`retry` decorator to resolve each config field: `None` (and also `0`,
since Python `or` tests truthiness) falls back to the default. -/
def pyOrNat (passed : Option Nat) (fallback : Nat) : Nat :=
  match passed with
  | none => fallback
  | some v => if v = 0 then fallback else v

/-- Python `x or d` for an optional rational argument (see `pyOrNat`). -/
def pyOrRat (passed : Option ℚ) (fallback : ℚ) : ℚ :=
  match passed with
  | none => fallback
  | some v => if v = 0 then fallback else v

/-- Embedding of the config resolution performed inside the `retry` (and
`async_retry`) decorator wrapper (shared/utils/retry.py, lines 84-92 and
162-170): each argument left as `None` falls back to the service
settings, and `max_delay` falls back to `settings.service.retry_delay * 10`. -/
def resolveRetryConfig (maxRetriesArg : Option Nat)
    (baseDelayArg maxDelayArg backoffFactorArg : Option ℚ) (jitterArg : Bool) :
    RetryConfig where
  maxRetries := pyOrNat maxRetriesArg settingsMaxRetries
  baseDelay := pyOrRat baseDelayArg settingsRetryDelay
  maxDelay := pyOrRat maxDelayArg (settingsRetryDelay * 10)
  backoffFactor := pyOrRat backoffFactorArg settingsRetryBackoffFactor
  jitter := jitterArg

/-- The config built by the `retry` decorator when called with all
arguments at their defaults (`jitter=True`, everything else `None`). -/
def retryDecoratorDefaultConfig : RetryConfig :=
  resolveRetryConfig none none none none true

/-- Embedding of `calculate_delay` (shared/utils/retry.py, lines 44-54):
exponential backoff clamped at `max_delay`, plus a jitter summand and a
floor at zero.  The argument `draw` stands for the value returned by
`random.uniform(-jitter_range, jitter_range)`; theorems about this
function carry the bound `|draw| ≤ jitter_range` as a hypothesis. -/
def calculate_delay (attempt : Nat) (config : RetryConfig) (draw : ℚ) : ℚ :=
  let delay := min (config.baseDelay * config.backoffFactor ^ attempt) config.maxDelay
  let delay := if config.jitter then delay + draw else delay
  max 0 delay

/-- Outcome of a call through the retry wrapper: a normal return, a
`RetryError` raised after exhaustion (carrying the last underlying
exception as its `__cause__`), or an exception re-raised unwrapped. -/
inductive RetryOutcome (α : Type) where
  | ok (value : α)
  | retryErr (cause : PyExc)
  | raised (exc : PyExc)
deriving Repr, DecidableEq

/-- Embedding of the retry loop body shared by `retry`, `async_retry`
(shared/utils/retry.py, lines 96-122 and 174-196).  `attempts n` is the
outcome of invoking the wrapped function the `(n+1)`-th time, `draws n`
the jitter sample used before the sleep that follows a failed attempt
`n`.  The second component collects the sleep durations in order.  The
`remaining` counter counts the loop iterations still to come after the
current one, so `remaining = 0` is the iteration with
`attempt == config.max_retries`, where a retryable failure raises
`RetryError from e` instead of sleeping. -/
def retryGo {α : Type} (config : RetryConfig) (retryable : PyExc → Bool)
    (attempts : Nat → Except PyExc α) (draws : Nat → ℚ) (attempt : Nat) :
    Nat → RetryOutcome α × List ℚ
  | 0 =>
    match attempts attempt with
    | .ok a => (.ok a, [])
    | .error e => if retryable e then (.retryErr e, []) else (.raised e, [])
  | remaining + 1 =>
    match attempts attempt with
    | .ok a => (.ok a, [])
    | .error e =>
      if retryable e then
        let rest := retryGo config retryable attempts draws (attempt + 1) remaining
        (rest.1, calculate_delay attempt config (draws attempt) :: rest.2)
      else (.raised e, [])

/-- Embedding of one call through the `retry` (or `async_retry`) wrapper:
the loop `for attempt in range(config.max_retries + 1)` started at
attempt 0. -/
def retryRun {α : Type} (config : RetryConfig) (retryable : PyExc → Bool)
    (attempts : Nat → Except PyExc α) (draws : Nat → ℚ) : RetryOutcome α × List ℚ :=
  retryGo config retryable attempts draws 0 config.maxRetries

/-! ## shared/utils/redis_client.py

Each public method of class `RedisClient` delegates to exactly one call
on the underlying `redis` client inside a `try` block.  We embed each
method as a function of the outcome of that one underlying call
(`.ok v` if the call returns `v`, `.error e` if it raises `e`), and pair
the result with the number of underlying calls the method body issues,
which is 1 on every path: the class contains no loop and applies no
retry decorator. -/

/-- Fields of one stream message: short string names mapped to string values. -/
abbrev MsgFields := List (String × String)

/-- Result shape of a consumer-group read: a list of
`(stream, [(message id, fields)])` batches. -/
abbrev StreamBatch := String × List (String × MsgFields)

/-- One entry of an `xpending_range` reply, reduced to the message id the
worker loops consume from it. -/
structure PendingInfo where
  message_id : String
deriving Repr, DecidableEq

namespace RedisClient

/-- Embedding of `RedisClient.get` (shared/utils/redis_client.py, lines
88-95): one underlying `client.get(key)` call; on any exception the
method logs and returns `None`. -/
def get (call : Except PyExc (Option String)) : Option String × Nat :=
  match call with
  | .ok v => (v, 1)
  | .error _ => (none, 1)

/-- Embedding of `RedisClient.set` (shared/utils/redis_client.py, lines
97-104): one underlying `client.set(key, value, ex)` call; on any
exception the method logs and returns `False`. -/
def set (call : Except PyExc Bool) : Bool × Nat :=
  match call with
  | .ok v => (v, 1)
  | .error _ => (false, 1)

/-- Embedding of `RedisClient.sismember` (shared/utils/redis_client.py,
lines 115-122): one underlying call; on any exception returns `False`. -/
def sismember (call : Except PyExc Bool) : Bool × Nat :=
  match call with
  | .ok v => (v, 1)
  | .error _ => (false, 1)

/-- Embedding of `RedisClient.xreadgroup` (shared/utils/redis_client.py,
lines 154-168): one underlying call; on any exception returns `[]`. -/
def xreadgroup (call : Except PyExc (List StreamBatch)) : List StreamBatch × Nat :=
  match call with
  | .ok v => (v, 1)
  | .error _ => ([], 1)

/-- Embedding of `RedisClient.xack` (shared/utils/redis_client.py, lines
190-197): one underlying call; on any exception returns `0`. -/
def xack (call : Except PyExc Nat) : Nat × Nat :=
  match call with
  | .ok v => (v, 1)
  | .error _ => (0, 1)

/-- Embedding of `RedisClient.xpending_range` (shared/utils/redis_client.py,
lines 199-212): one underlying call; on any exception returns `[]`. -/
def xpending_range (call : Except PyExc (List PendingInfo)) : List PendingInfo × Nat :=
  match call with
  | .ok v => (v, 1)
  | .error _ => ([], 1)

/-- Embedding of `RedisClient.xadd` (shared/utils/redis_client.py, lines
124-152): one underlying call; this is the one method that re-raises the
exception instead of returning a fallback. -/
def xadd (call : Except PyExc String) : Except PyExc String × Nat :=
  match call with
  | .ok v => (.ok v, 1)
  | .error e => (.error e, 1)

end RedisClient

/-- The method names class `RedisClient` defines
(shared/utils/redis_client.py): `_serialize_value`, `_get_client` and the
public operations.  Accessing any other attribute on an instance raises
`AttributeError`. -/
def redisClientMethodNames : List String :=
  ["_serialize_value", "_get_client", "ping", "get", "set", "sadd",
   "sismember", "xadd", "xreadgroup", "xgroup_create", "xack",
   "xpending_range", "xrange", "close"]

/-! ## Drain status endpoints
(services/analyzer/main.py `get_analyzer_status`, lines 98-140, and
services/notion_worker/app/main.py `get_notion_worker_status`, lines
59-101; the two bodies are identical up to the stream and group names). -/

/-- Per-stream state exposed by the bus: `XINFO STREAM` data. -/
structure StreamInfo where
  last_generated_id : String
deriving Repr, DecidableEq

/-- Per-group state exposed by the bus: `XINFO GROUPS` data. -/
structure GroupInfo where
  name : String
  last_delivered_id : String
  pending : Nat
deriving Repr, DecidableEq

/-- Snapshot of the bus visible to a status endpoint: which streams
exist (with their stream info) and the consumer groups of each stream. -/
structure BusState where
  streams : List (String × StreamInfo)
  groups : List (String × List GroupInfo)

/-- Stream lookup: `XINFO STREAM name` succeeds exactly when the stream
exists (otherwise the bus raises a ResponseError whose text contains
"no such key"). -/
def BusState.streamInfo (bus : BusState) (name : String) : Option StreamInfo :=
  (bus.streams.find? (fun p => p.1 == name)).map (fun p => p.2)

/-- Groups of a stream as returned by `XINFO GROUPS`. -/
def BusState.groupsOf (bus : BusState) (name : String) : List GroupInfo :=
  ((bus.groups.find? (fun p => p.1 == name)).map (fun p => p.2)).getD []

/-- Responses the status endpoints can produce. -/
inductive StatusResponse where
  | body (is_idle : Bool) (last_generated_id : String)
      (last_delivered_id : String) (pending_messages : Nat)
  | idleNoStream
  | httpError (code : Nat)
deriving Repr, DecidableEq

/-- Embedding of the shared body of `get_analyzer_status` and
`get_notion_worker_status`.  The `try` block first evaluates
`redis_client.xinfo_stream(...)` where `redis_client` is the shared
`RedisClient` wrapper returned by `get_redis_client`; Python attribute
lookup on that object succeeds only for the methods the class defines
(`redisClientMethodNames`), and otherwise raises `AttributeError`, which
falls through to the final `except Exception` handler and becomes
`HTTPException(500)`.  Inside the block: a missing stream raises the
"no such key" ResponseError, answered with `is_idle = true`; a missing
group raises `HTTPException(404)`, but that exception is itself caught
by the final `except Exception` handler inside the same `try` and so is
also answered with status 500; otherwise the endpoint returns the
`is_idle` body, with `is_idle` true exactly when
`last_generated_id == last_delivered_id` and the pending count is 0. -/
def drainStatusEndpoint (streamName groupName : String) (bus : BusState) :
    StatusResponse :=
  if redisClientMethodNames.contains "xinfo_stream"
      && redisClientMethodNames.contains "xinfo_groups" then
    match bus.streamInfo streamName with
    | none => .idleNoStream
    | some sInfo =>
      match (bus.groupsOf streamName).find? (fun g => g.name == groupName) with
      | none => .httpError 500
      | some gInfo =>
        .body (sInfo.last_generated_id == gInfo.last_delivered_id
                && gInfo.pending == 0)
          sInfo.last_generated_id gInfo.last_delivered_id gInfo.pending
  else
    .httpError 500

/-- Default of `ServiceSettings.consumer_group_prefix`
(shared/config/settings.py): the string "ravedigest". -/
def consumerGroupPrefixSetting : String := "ravedigest"

/-- Embedding of `get_analyzer_status` (services/analyzer/main.py, lines
98-140): stream `raw_articles`, group `<prefix>-analyzer`. -/
def get_analyzer_status (bus : BusState) : StatusResponse :=
  drainStatusEndpoint "raw_articles" (consumerGroupPrefixSetting ++ "-analyzer") bus

/-- Embedding of `get_notion_worker_status`
(services/notion_worker/app/main.py, lines 59-101): the source sets
`stream_name = "digests"` (not `digest_stream`, the stream the worker
consumes), group `<prefix>-notion`. -/
def get_notion_worker_status (bus : BusState) : StatusResponse :=
  drainStatusEndpoint "digests" (consumerGroupPrefixSetting ++ "-notion") bus

/-! ## Analyzer worker (services/analyzer/main.py `handle_message`, lines 176-218) -/

/-- Durable steps of one analyzer handler invocation, recorded when the
corresponding source call completes without raising.  `acked` records
that `redis_client.xack(stream, group, msg_id)` was issued. -/
inductive AnEvent where
  | fetched
  | summarized
  | savedToDb
  | appendedEnriched
  | acked
deriving Repr, DecidableEq

/-- Embedding of `handle_message` (services/analyzer/main.py, lines
176-218) as the trace of completed steps, given the outcome of each
fallible call: `RawArticle(**payload)` validation, `fetch_and_extract`,
`safe_summarize`, `save_enriched_to_db` and the `enriched_articles`
`xadd` (which re-raises failure, see `RedisClient.xadd`).  A raising
step aborts the body, so no later event is emitted, and in particular no
ack; the ack call is the final statement of the body. -/
def handle_message (validOk : Bool) (fetchR : Except PyExc String)
    (sumR : Except PyExc (String × ℚ)) (saveR : Except PyExc Unit)
    (xaddR : Except PyExc String) : List AnEvent :=
  if validOk then
    match fetchR, sumR, saveR, xaddR with
    | .error _, _, _, _ => []
    | .ok _, .error _, _, _ => [.fetched]
    | .ok _, .ok _, .error _, _ => [.fetched, .summarized]
    | .ok _, .ok _, .ok _, .error _ => [.fetched, .summarized, .savedToDb]
    | .ok _, .ok _, .ok _, .ok _ =>
      [.fetched, .summarized, .savedToDb, .appendedEnriched, .acked]
  else []

/-! ## Publisher worker
(services/notion_worker/app/worker.py `consume_digest_stream`, lines 181-254) -/

/-- Python truthiness of an `Optional[str]`, as tested by
`if redis_client.get(f"digest_published:...")`: `None` and the empty
string are falsy, every other string truthy. -/
def pyTruthyStr (o : Option String) : Bool :=
  match o with
  | none => false
  | some s => !s.data.isEmpty

/-- Observable steps of one publisher handler invocation.  `createdPage`
records a `notion.pages.create` call that succeeded, `markerSetCall ttl`
the `redis_client.set("digest_published:<id>", 1, ex=ttl)` wrapper call
being issued, `markerCommitted ttl` that the underlying bus SET actually
committed the marker, and `ackedMsg` the `xack` call. -/
inductive PubEvent where
  | createdPage
  | markerSetCall (ttl : Nat)
  | markerCommitted (ttl : Nat)
  | ackedMsg
deriving Repr, DecidableEq

/-- Embedding of the per-message body of `consume_digest_stream`
(services/notion_worker/app/worker.py, lines 205-248) as the trace of
observable steps.  Inputs: whether `DigestReady(**payload)` validated,
the outcome `getCall` of the underlying bus read inside
`redis_client.get("digest_published:<id>")` (fed through
`RedisClient.get`, which swallows a failure into `None`), whether
`db.get(Digest, id)` found the digest row, whether
`retry_with_backoff(post_page)` ultimately succeeded (its internal
retries stay inside the knowledge-base client), and the outcome
`setCall` of the underlying bus write inside
`redis_client.set(..., ex=86400)` (whose `RedisClient.set` wrapper
swallows a failure into `False`, a return value the worker ignores, so
the marker commits only when `setCall` succeeds).  Marker read as
truthy: ack and skip.  Digest row missing: log and ack with nothing
published.  Publish path: page creation, then the marker-set call, then
the ack; a raising publish aborts the body before any ack. -/
def digestMessageHandler (validOk : Bool) (getCall : Except PyExc (Option String))
    (digestInDb postOk : Bool) (setCall : Except PyExc Bool) : List PubEvent :=
  if validOk then
    if pyTruthyStr (RedisClient.get getCall).1 then [.ackedMsg]
    else if digestInDb then
      if postOk then
        .createdPage :: .markerSetCall 86400 ::
          ((match setCall with
            | .ok _ => [PubEvent.markerCommitted 86400]
            | .error _ => []) ++ [PubEvent.ackedMsg])
      else []
    else [.ackedMsg]
  else []

/-- One delivery of a `digest_stream` message for a fixed digest id,
acting on the true published-marker state `marker` (assumed within its
TTL): derived from `digestMessageHandler` with a validated payload.
When the underlying marker read works, it returns the stored value "1"
for a present marker and `None` for an absent one; `getFails` makes it
raise instead (swallowed by the wrapper into `None`).  `setFails` makes
the underlying marker write raise (swallowed by the wrapper, no
commit).  Returns the marker state after the delivery and the number of
successful page creations in it. -/
def publishDelivery (digestInDb marker getFails postOk setFails : Bool) :
    Bool × Nat :=
  let getCall : Except PyExc (Option String) :=
    if getFails then .error 0 else .ok (if marker then some "1" else none)
  let setCall : Except PyExc Bool :=
    if setFails then .error 0 else .ok true
  let tr := digestMessageHandler true getCall digestInDb postOk setCall
  (marker || tr.contains (.markerCommitted 86400), tr.count .createdPage)

/-- Folding `publishDelivery` over a sequence of deliveries or
redeliveries of messages carrying the same digest id: each delivery is a
triple `(getFails, postOk, setFails)`.  Returns the final marker state
and the total number of successful page creations. -/
def publishFold (digestInDb : Bool) : Bool → List (Bool × Bool × Bool) → Bool × Nat
  | m, [] => (m, 0)
  | m, f :: rest =>
    let step := publishDelivery digestInDb m f.1 f.2.1 f.2.2
    let next := publishFold digestInDb step.1 rest
    (next.1, step.2 + next.2)

/-- A delivery sequence on which every underlying marker read and write
succeeds: only the knowledge-base call outcomes `posts` vary. -/
def faultFreeDeliveries (posts : List Bool) : List (Bool × Bool × Bool) :=
  posts.map (fun p => (false, p, false))

/-! ## Composer (services/composer/app/template_engine.py and digest_utils.py) -/

/-- Python `str.strip()` on the character sequence of a string:
whitespace removed from both ends. -/
def pyStrip (l : List Char) : List Char :=
  ((l.dropWhile Char.isWhitespace).reverse.dropWhile Char.isWhitespace).reverse

/-- Python substring containment `pat in hay` on character sequences:
`pat` is a prefix of some suffix of `hay`. -/
def pyIn (pat hay : List Char) : Bool :=
  (List.range (hay.length + 1)).any (fun i => pat.isPrefixOf (hay.drop i))

/-- Python substring containment `pat in hay` for strings. -/
def strContains (hay pat : String) : Bool :=
  pyIn pat.data hay.data

/-- Splitting a character sequence at every occurrence of a separator
character, the list analogue of splitting a text into its lines. -/
def splitOnChar (c : Char) : List Char → List (List Char)
  | [] => [[]]
  | x :: xs =>
    let rest := splitOnChar c xs
    if x = c then [] :: rest
    else
      match rest with
      | [] => [[x]]
      | r :: rs => (x :: r) :: rs

/-- Whether a line matches the anchored pattern of
`re.search(r"^## \d+\.", md, re.MULTILINE)` at its start: the literal
"## ", then one or more digits, then a dot. -/
def headingLineMatch (line : List Char) : Bool :=
  ['#', '#', ' '].isPrefixOf line &&
    (let rest := line.drop 3
     let digits := rest.takeWhile Char.isDigit
     decide (0 < digits.length) && ['.'].isPrefixOf (rest.drop digits.length))

/-- The multiline regex search of `validate_markdown`: with
`re.MULTILINE`, `^` matches at the start of the text and after each
newline, so the search succeeds exactly when some line of the text
matches at its start. -/
def hasArticleHeading (md : String) : Bool :=
  (splitOnChar (Char.ofNat 10) md.data).any headingLineMatch

/-- Embedding of `validate_markdown`
(services/composer/app/template_engine.py, lines 59-73): the four checks
in source order, each raising `ValueError` with the given message; on
success the function returns `True`. -/
def validate_markdown (md : String) : Except String Bool :=
  if pyStrip md.data = [] then .error "Digest content is empty"
  else if !hasArticleHeading md then .error "No article sections found"
  else if strContains md "[[" || strContains md "]]" then
    .error "Possible broken markdown link brackets"
  else if !strContains md "**Summary:**" then .error "No summaries detected"
  else .ok true

/-- Observable steps of `generate_and_publish_digest`. -/
inductive CompEvent where
  | renderedMd
  | createdDigestRow
  | publishedDigestReady
deriving Repr, DecidableEq

/-- Results of `generate_and_publish_digest`: the created digest, the
`None` return of the empty case, or a propagated exception. -/
inductive CompResult where
  | digestCreated
  | noneEmpty
  | raisedError (msg : String)
deriving Repr, DecidableEq

/-- Embedding of `generate_and_publish_digest`
(services/composer/app/digest_utils.py, lines 99-133): with `articles`
the number of rows `get_top_articles` returned and `md` the string the
template rendered, the body returns `None` when no articles were found,
and otherwise validates `md`; a validation error propagates (the
`except` clause re-raises) before `create_digest` and
`publish_digest_ready` run. -/
def generate_and_publish_digest (articles : Nat) (md : String) :
    CompResult × List CompEvent :=
  if articles = 0 then (.noneEmpty, [])
  else
    match validate_markdown md with
    | .error m => (.raisedError m, [.renderedMd])
    | .ok _ => (.digestCreated, [.renderedMd, .createdDigestRow, .publishedDigestReady])

/-! ## Analyzer developer-focus classifier (services/analyzer/filter.py) -/

/-- Embedding of `mark_developer_focus` (services/analyzer/filter.py,
lines 156-184).  The TF-IDF machinery (vectorizer fit on the keyword
list, cosine similarity against each keyword vector) is an external
collaborator; `maxSim text` stands for `sims.max()`, the largest cosine
similarity between the transformed text and the keyword vectors.  Stage
1 returns `True` on a direct lowercased-substring hit; stage 2 compares
the maximal similarity strictly against the threshold. -/
def mark_developer_focus (keywords : List String) (threshold : ℚ)
    (maxSim : String → ℚ) (title summary : String) : Bool :=
  let text := (title ++ " " ++ summary).toLower
  if keywords.any (fun kw => strContains text kw.toLower) then true
  else decide (maxSim text > threshold)

/-! ## Collector HTTP surface (services/collector/src/collector/main.py) -/

/-- The routes the collector FastAPI app registers
(services/collector/src/collector/main.py): the three health endpoints.
The `GET /collect/rss` handler (lines 53-99 of that file) is commented
out in its entirety, so no such route is added to the app. -/
def collectorRoutes : List (String × String) :=
  [("GET", "/collector/health"),
   ("GET", "/collector/health/live"),
   ("GET", "/collector/health/ready")]

/-- The path the scheduler requests when triggering the collector
(services/scheduler/src/main.py, `trigger_collector`, lines 27-35). -/
def collectRssPath : String := "/collect/rss"

/-- FastAPI dispatch on the collector app: a registered route answers
(200 here, standing for the handler response), any other path gets 404. -/
def collectorDispatch (method path : String) : Nat :=
  if collectorRoutes.contains (method, path) then 200 else 404

/-! ## Scheduler (services/scheduler/src/main.py) -/

/-- The time-of-day string `run_schedule` registers the daily job at
(services/scheduler/src/main.py, line 114:
`schedule.every().day.at("14:25").do(daily_job)`). -/
def runScheduleDailyAt : String := "14:25"

/-! ## Theorems -/

/-- C1: the claim says the drain status endpoints return a body with
`is_idle`, `last_generated_id`, `last_delivered_id`, `pending_messages`
(404 on a missing group, idle on a missing stream).  The code cannot do
any of this: both endpoints call `xinfo_stream` and `xinfo_groups` on
the shared `RedisClient` wrapper, which defines no such methods, so the
very first bus access raises `AttributeError` and the generic exception
handler turns every request into HTTP 500, for every bus state.  (The
notion endpoint additionally inspects stream `digests`, not
`digest_stream`.) -/
theorem status_endpoints_always_500 (bus : BusState) :
    get_analyzer_status bus = .httpError 500 ∧
    get_notion_worker_status bus = .httpError 500 ∧
    redisClientMethodNames.contains "xinfo_stream" = false :=
  ⟨rfl, rfl, rfl⟩

/-- C4: the claim says the Collector exposes `GET /collect/rss`
returning `{status, total_collected, total_skipped, total_errors,
feeds_processed}`.  The handler (and its route registration) is
commented out wholesale in services/collector/src/collector/main.py, so
the app registers no such route and dispatch answers 404 — including to
the scheduler, whose `trigger_collector` requests exactly this path. -/
theorem collect_rss_route_missing :
    collectorDispatch "GET" collectRssPath = 404 ∧
    collectorRoutes.all (fun r => r.2 != collectRssPath) = true := by
  decide

/-- C9: the claim says the scheduler registers the daily job at the
fixed default local time 08:30.  `run_schedule` registers it at "14:25"
(the string "08:30" survives only in a comment on the same line). -/
theorem scheduler_daily_time_is_14_25 :
    runScheduleDailyAt = "14:25" ∧ runScheduleDailyAt ≠ "08:30" := by
  decide

/-- C5 counterexample: the claim says every bus client operation is
wrapped with the §5 retry policy — retried with exponential backoff,
with failure surfaced only after the retries are exhausted.  For a
key-value `get` whose one underlying call fails, the wrapper would have
to either issue a second attempt or surface the failure; the code does
neither: it makes exactly one underlying call and returns `None`,
indistinguishable from a successful read of an absent key. -/
theorem bus_get_no_retry_counterexample :
    ¬(2 ≤ (RedisClient.get (.error 7)).2 ∨
      RedisClient.get (.error 7) ≠ RedisClient.get (.ok none)) := by
  decide

/-- C5 as amended: no bus client operation retries.  Each method makes
exactly one underlying call and, when it raises, swallows the exception
and returns a fallback value (`get` → `None`, `set` → `False`,
`sismember` → `False`, group read → `[]`, ack → `0`, pending
enumeration → `[]`); only `xadd` surfaces the failure, by re-raising it
immediately without retrying. -/
theorem bus_ops_single_attempt_fallback (e : PyExc) :
    RedisClient.get (.error e) = (none, 1) ∧
    RedisClient.set (.error e) = (false, 1) ∧
    RedisClient.sismember (.error e) = (false, 1) ∧
    RedisClient.xreadgroup (.error e) = ([], 1) ∧
    RedisClient.xack (.error e) = (0, 1) ∧
    RedisClient.xpending_range (.error e) = ([], 1) ∧
    RedisClient.xadd (.error e) = (.error e, 1) :=
  ⟨rfl, rfl, rfl, rfl, rfl, rfl, rfl⟩

/-- C8: the developer-focus classifier returns true exactly when some
configured keyword, lowercased, occurs in the lowercased concatenation
`title ++ " " ++ summary`, or else the maximal TF-IDF cosine similarity
of that text against the keywords strictly exceeds the threshold; the
configured default threshold is 0.6. -/
theorem mark_developer_focus_spec (keywords : List String) (threshold : ℚ)
    (maxSim : String → ℚ) (title summary : String) :
    (mark_developer_focus keywords threshold maxSim title summary = true ↔
      (∃ kw ∈ keywords,
        strContains ((title ++ " " ++ summary).toLower) kw.toLower = true) ∨
      maxSim ((title ++ " " ++ summary).toLower) > threshold) ∧
    settingsCosineSimilarityThreshold = 6 / 10 := by
  refine ⟨?_, rfl⟩
  have heq : mark_developer_focus keywords threshold maxSim title summary
      = (keywords.any
          (fun kw => strContains ((title ++ " " ++ summary).toLower) kw.toLower)
        || decide (maxSim ((title ++ " " ++ summary).toLower) > threshold)) := by
    by_cases h : keywords.any
        (fun kw => strContains ((title ++ " " ++ summary).toLower) kw.toLower) = true
    · simp [mark_developer_focus, h]
    · simp [mark_developer_focus, h]
  rw [heq]
  simp [List.any_eq_true]

/-- C2 counterexample: the claim says the Publisher acks only after the
published-digest marker has been set.  Run the handler on a validated
message with the marker absent, the digest row present, a successful
page creation, and an underlying marker write that raises:
`RedisClient.set` swallows the failure into `False`, the worker ignores
that value and issues the ack anyway, so the message is acked although
the marker never committed. -/
theorem ack_after_effect_counterexample :
    PubEvent.ackedMsg ∈ digestMessageHandler true (.ok none) true true (.error 7) ∧
    PubEvent.markerCommitted 86400
      ∉ digestMessageHandler true (.ok none) true true (.error 7) := by
  decide

/-- C2 as amended: for the Analyzer the claim holds as stated — an
issued ack forces the full success trace, with the store write and the
`enriched_articles` append before the ack.  For the Publisher only the
weaker property holds: in the publish path an issued ack forces a
successful page creation, with the page creation and the marker-set
call issued before the ack, and the marker committed before the ack
exactly when the underlying bus write succeeded — a swallowed
`RedisClient.set` failure still acks, with the marker uncommitted. -/
theorem ack_after_effect_amended :
    (∀ (validOk : Bool) (fetchR : Except PyExc String)
        (sumR : Except PyExc (String × ℚ)) (saveR : Except PyExc Unit)
        (xaddR : Except PyExc String),
      AnEvent.acked ∈ handle_message validOk fetchR sumR saveR xaddR →
      handle_message validOk fetchR sumR saveR xaddR
        = [.fetched, .summarized, .savedToDb, .appendedEnriched, .acked]) ∧
    (∀ (getCall : Except PyExc (Option String)) (postOk : Bool)
        (setCall : Except PyExc Bool),
      PubEvent.ackedMsg ∈ digestMessageHandler true getCall true postOk setCall →
      pyTruthyStr (RedisClient.get getCall).1 = false →
      postOk = true ∧
      digestMessageHandler true getCall true postOk setCall
        = .createdPage :: .markerSetCall 86400 ::
            ((match setCall with
              | .ok _ => [PubEvent.markerCommitted 86400]
              | .error _ => []) ++ [PubEvent.ackedMsg])) := by
  constructor
  · intro validOk fetchR sumR saveR xaddR hmem
    cases validOk <;> cases fetchR <;> cases sumR <;> cases saveR <;> cases xaddR <;>
      simp_all [handle_message]
  · intro getCall postOk setCall hmem hmarker
    cases postOk <;> simp_all [digestMessageHandler]

/-- C2 witness: both parts of `ack_after_effect_amended` applied at
concrete all-success inputs, where the marker also commits before the
ack. -/
theorem ack_after_effect_amended_witness :
    handle_message true (.ok "body") (.ok ("SUM", 1 / 2)) (.ok ()) (.ok "1-1")
      = [.fetched, .summarized, .savedToDb, .appendedEnriched, .acked] ∧
    digestMessageHandler true (.ok none) true true (.ok true)
      = [.createdPage, .markerSetCall 86400, .markerCommitted 86400, .ackedMsg] :=
  ⟨ack_after_effect_amended.1 true (.ok "body") (.ok ("SUM", 1 / 2)) (.ok ())
      (.ok "1-1") (by simp [handle_message]),
    (ack_after_effect_amended.2 (.ok none) true (.ok true)
      (by decide) (by decide)).2⟩

/-- C3 counterexample: the claim says at most one create-page call is
issued for a digest id within the marker TTL.  Two deliveries suffice to
refute it: the first (no bus faults) creates the page and commits the
marker; on the second the underlying marker read raises while the
marker is present and live, `RedisClient.get` swallows the failure into
`None`, the truthiness guard sees no marker, and a second page creation
succeeds. -/
theorem publish_idempotent_counterexample :
    ¬((publishFold true false
        [(false, true, false), (true, true, false)]).2 ≤ 1) := by
  decide

/-- Helper for C3: on fault-free deliveries, once the published marker
is present no later delivery of the same digest id creates a page. -/
lemma publishFold_marker_true (digestInDb : Bool) (posts : List Bool) :
    (publishFold digestInDb true (faultFreeDeliveries posts)).2 = 0 := by
  have hstep : ∀ (d q : Bool), publishDelivery d true false q false = (true, 0) := by
    decide
  induction posts with
  | nil => rfl
  | cons p rest ih =>
    simpa [publishFold, faultFreeDeliveries, hstep] using ih

/-- Helper for C3: across any fault-free delivery sequence the total
number of successful page creations is at most one. -/
lemma publishFold_count_le_one (digestInDb : Bool) :
    ∀ (m0 : Bool) (posts : List Bool),
      (publishFold digestInDb m0 (faultFreeDeliveries posts)).2 ≤ 1 := by
  have hstep : ∀ (d q : Bool),
      publishDelivery d false false q false
        = (d && q, if d && q then 1 else 0) := by
    decide
  intro m0 posts
  induction posts generalizing m0 with
  | nil => simp [publishFold, faultFreeDeliveries]
  | cons p rest ih =>
    cases m0 with
    | true =>
      have h0 := publishFold_marker_true digestInDb (p :: rest)
      omega
    | false =>
      cases digestInDb <;> cases p <;>
        simp_all [publishFold, faultFreeDeliveries, hstep] <;>
        simpa [faultFreeDeliveries] using publishFold_marker_true true rest

/-- C3 as amended: the idempotency guard holds only while the underlying
marker reads and writes succeed.  On fault-free deliveries, at most one
knowledge-base page creation succeeds across any delivery sequence for
one digest id within the marker TTL, a delivery that reads the marker as
present acks and skips without publishing, and the successful publish
path issues the marker set with TTL 86400 (committing it) before the
ack; a swallowed marker read or write failure voids the guard (see the
counterexample). -/
theorem publish_idempotent_amended (digestInDb m0 postOk : Bool)
    (setCall : Except PyExc Bool) (posts : List Bool) :
    (publishFold digestInDb m0 (faultFreeDeliveries posts)).2 ≤ 1 ∧
    digestMessageHandler true (.ok (some "1")) digestInDb postOk setCall
      = [.ackedMsg] ∧
    digestMessageHandler true (.ok none) true true (.ok true)
      = [.createdPage, .markerSetCall 86400, .markerCommitted 86400, .ackedMsg] :=
  ⟨publishFold_count_le_one digestInDb m0 posts, rfl, rfl⟩

/-- C7: the rendered-digest validation fails exactly on an empty (or
whitespace-only) text, a text with no `## N.` heading line, a text
containing stray `[[` or `]]`, or a text with no `**Summary:**`
occurrence; and when it fails, the composer neither inserts a digest
row nor appends a `digest_stream` message. -/
theorem validate_markdown_spec (md : String) (articles : Nat) :
    ((validate_markdown md).isOk = true ↔
      ¬(pyStrip md.data = [] ∨ hasArticleHeading md = false ∨
        strContains md "[[" = true ∨ strContains md "]]" = true ∨
        strContains md "**Summary:**" = false)) ∧
    ((validate_markdown md).isOk = false →
      CompEvent.createdDigestRow ∉ (generate_and_publish_digest articles md).2 ∧
      CompEvent.publishedDigestReady ∉ (generate_and_publish_digest articles md).2) := by
  constructor
  · unfold validate_markdown
    by_cases h1 : pyStrip md.data = [] <;>
      by_cases h2 : hasArticleHeading md <;>
        by_cases h3 : strContains md "[[" <;>
          by_cases h4 : strContains md "]]" <;>
            by_cases h5 : strContains md "**Summary:**" <;>
              simp_all [Except.isOk, Except.toBool]
  · intro hf
    rcases hv : validate_markdown md with m | b
    · rcases Nat.eq_zero_or_pos articles with hz | hp
      · subst hz
        simp [generate_and_publish_digest]
      · have hne : articles ≠ 0 := Nat.pos_iff_ne_zero.mp hp
        simp [generate_and_publish_digest, hne, hv]
    · rw [hv] at hf
      simp [Except.isOk, Except.toBool] at hf

/-- C7 witness: `validate_markdown_spec` applied at the empty rendered
text of scenario 8.6 (template yielding the empty string). -/
theorem validate_markdown_spec_witness :
    CompEvent.createdDigestRow ∉ (generate_and_publish_digest 1 "").2 ∧
    CompEvent.publishedDigestReady ∉ (generate_and_publish_digest 1 "").2 :=
  (validate_markdown_spec "" 1).2 (by decide)

/-- Helper for C6: the resolved default decorator config, field by field. -/
lemma retryDecoratorDefaultConfig_eq :
    retryDecoratorDefaultConfig = ⟨3, 1, 10, 2, true⟩ := by
  norm_num [retryDecoratorDefaultConfig, resolveRetryConfig, pyOrNat, pyOrRat,
    settingsMaxRetries, settingsRetryDelay, settingsRetryBackoffFactor]

/-- Helper for C6: under the jitter bound of the uniform draw, the floor
at zero in `calculate_delay` is inert, so the delay is exactly the
clamped exponential value plus the draw. -/
lemma calculate_delay_default_eq (n : Nat) (d : ℚ)
    (hd : |d| ≤ min ((1 : ℚ) * 2 ^ n) 10 / 10) :
    calculate_delay n retryDecoratorDefaultConfig d
      = min ((1 : ℚ) * 2 ^ n) 10 + d := by
  have hmin : (0 : ℚ) ≤ min ((1 : ℚ) * 2 ^ n) 10 := by positivity
  have habs := abs_le.mp hd
  have hnn : 0 ≤ min ((1 : ℚ) * 2 ^ n) 10 + d := by nlinarith [habs.1]
  rw [retryDecoratorDefaultConfig_eq]
  show max 0 (min ((1 : ℚ) * 2 ^ n) 10 + d) = min ((1 : ℚ) * 2 ^ n) 10 + d
  exact max_eq_right hnn

/-- C6: defaults of the retry decorator.  The resolved config has
`max_retries = 3`, `base_delay = 1`, `backoff_factor = 2` and
`max_delay = 10 × base_delay`; when every attempt fails with a
retryable exception, the wrapper raises a retry-exhausted error instead
of returning, and the sleeps it performed before retries 1..max_retries
are exactly `min(base_delay·backoff_factor^n, max_delay) + draw n`
with each draw bounded by ±10% of the clamped value. -/
theorem retry_defaults_backoff_exhaustion
    (attempts : Nat → Except PyExc Nat) (draws : Nat → ℚ)
    (hfail : ∀ n, ∃ e, attempts n = Except.error e)
    (hdraw : ∀ n, |draws n| ≤ min ((1 : ℚ) * 2 ^ n) 10 / 10) :
    retryDecoratorDefaultConfig.maxRetries = 3 ∧
    retryDecoratorDefaultConfig.baseDelay = 1 ∧
    retryDecoratorDefaultConfig.backoffFactor = 2 ∧
    retryDecoratorDefaultConfig.maxDelay
      = 10 * retryDecoratorDefaultConfig.baseDelay ∧
    (∃ e, (retryRun retryDecoratorDefaultConfig (fun _ => true) attempts draws).1
        = RetryOutcome.retryErr e) ∧
    (retryRun retryDecoratorDefaultConfig (fun _ => true) attempts draws).2
      = (List.range 3).map
          (fun n => min ((1 : ℚ) * 2 ^ n) 10 + draws n) ∧
    ∀ n, |min ((1 : ℚ) * 2 ^ n) 10 + draws n - min ((1 : ℚ) * 2 ^ n) 10|
        ≤ min ((1 : ℚ) * 2 ^ n) 10 / 10 := by
  obtain ⟨e0, h0⟩ := hfail 0
  obtain ⟨e1, h1⟩ := hfail 1
  obtain ⟨e2, h2⟩ := hfail 2
  obtain ⟨e3, h3⟩ := hfail 3
  have hrun : retryRun retryDecoratorDefaultConfig (fun _ => true) attempts draws
      = (RetryOutcome.retryErr e3,
          [calculate_delay 0 retryDecoratorDefaultConfig (draws 0),
           calculate_delay 1 retryDecoratorDefaultConfig (draws 1),
           calculate_delay 2 retryDecoratorDefaultConfig (draws 2)]) := by
    show retryGo retryDecoratorDefaultConfig (fun _ => true) attempts draws 0 3 = _
    simp [retryGo, h0, h1, h2, h3]
  have hmaxd : retryDecoratorDefaultConfig.maxDelay
      = 10 * retryDecoratorDefaultConfig.baseDelay := by
    rw [retryDecoratorDefaultConfig_eq]; norm_num
  refine ⟨rfl, rfl, rfl, hmaxd, ⟨e3, by rw [hrun]⟩, ?_, ?_⟩
  · rw [hrun]
    simp [List.range_succ, calculate_delay_default_eq 0 (draws 0) (hdraw 0),
      calculate_delay_default_eq 1 (draws 1) (hdraw 1),
      calculate_delay_default_eq 2 (draws 2) (hdraw 2)]
  · intro n
    simpa using hdraw n

/-- C6 witness: `retry_defaults_backoff_exhaustion` applied at an
always-failing attempt function with zero jitter draws; sleeps are
1 s, 2 s, 4 s and the wrapper ends in the retry-exhausted error. -/
theorem retry_defaults_backoff_exhaustion_witness :
    (∃ e, (retryRun retryDecoratorDefaultConfig (fun _ => true)
        (fun _ => (Except.error 9 : Except PyExc Nat)) (fun _ => 0)).1
      = RetryOutcome.retryErr e) ∧
    (retryRun retryDecoratorDefaultConfig (fun _ => true)
        (fun _ => (Except.error 9 : Except PyExc Nat)) (fun _ => 0)).2
      = [1, 2, 4] := by
  have h := retry_defaults_backoff_exhaustion
    (fun _ => (Except.error 9 : Except PyExc Nat)) (fun _ => 0)
    (fun n => ⟨9, rfl⟩)
    (fun n => by simp; positivity)
  refine ⟨h.2.2.2.2.1, ?_⟩
  rw [h.2.2.2.2.2.1]
  norm_num [List.range_succ, min_def]

/-- Helper for C10: when every attempt from `attempt` through
`attempt + remaining` fails with a retryable exception, the loop ends by
raising the retry-exhausted error whose cause is the exception of the
final attempt. -/
lemma retryGo_allfail {α : Type} (config : RetryConfig) (retryable : PyExc → Bool)
    (attempts : Nat → Except PyExc α) (draws : Nat → ℚ) (excs : Nat → PyExc) :
    ∀ (remaining attempt : Nat),
      (∀ n, attempt ≤ n → n ≤ attempt + remaining →
        attempts n = Except.error (excs n) ∧ retryable (excs n) = true) →
      (retryGo config retryable attempts draws attempt remaining).1
        = RetryOutcome.retryErr (excs (attempt + remaining)) := by
  intro remaining
  induction remaining with
  | zero =>
    intro attempt h
    obtain ⟨he, hr⟩ := h attempt le_rfl (by omega)
    simp [retryGo, he, hr]
  | succ r ih =>
    intro attempt h
    obtain ⟨he, hr⟩ := h attempt le_rfl (by omega)
    have hrec := ih (attempt + 1) (fun n hn1 hn2 => h n (by omega) (by omega))
    have harith : attempt + 1 + r = attempt + (r + 1) := by omega
    rw [harith] at hrec
    simp [retryGo, he, hr, hrec]

/-- Helper for C10: the loop re-raises an exception unwrapped only when
that exception is outside the retryable set. -/
lemma retryGo_raised {α : Type} (config : RetryConfig) (retryable : PyExc → Bool)
    (attempts : Nat → Except PyExc α) (draws : Nat → ℚ) :
    ∀ (remaining attempt : Nat) (e : PyExc),
      (retryGo config retryable attempts draws attempt remaining).1
          = RetryOutcome.raised e →
      retryable e = false := by
  intro remaining
  induction remaining with
  | zero =>
    intro attempt e h
    rcases ha : attempts attempt with err | a
    · by_cases hr : retryable err = true
      · simp [retryGo, ha, hr] at h
      · simp [retryGo, ha, hr] at h
        rw [← h]
        exact Bool.eq_false_iff.mpr hr
    · simp [retryGo, ha] at h
  | succ r ih =>
    intro attempt e h
    rcases ha : attempts attempt with err | a
    · by_cases hr : retryable err = true
      · simp [retryGo, ha, hr] at h
        exact ih (attempt + 1) e h
      · simp [retryGo, ha, hr] at h
        rw [← h]
        exact Bool.eq_false_iff.mpr hr
    · simp [retryGo, ha] at h

/-- C10: post-exhaustion failures are wrapped.  When a wrapped function
fails on all `max_retries + 1` invocations with retryable exceptions,
the caller receives the retry-exhausted error carrying the last
underlying exception as its cause — never the original exception value;
an exception propagates unwrapped only when it is outside the configured
retryable set. -/
theorem retry_exhaustion_wraps_errors (config : RetryConfig)
    (retryable : PyExc → Bool) (attempts : Nat → Except PyExc Nat)
    (draws : Nat → ℚ) (excs : Nat → PyExc) :
    ((∀ n, n ≤ config.maxRetries →
        attempts n = Except.error (excs n) ∧ retryable (excs n) = true) →
      (retryRun config retryable attempts draws).1
        = RetryOutcome.retryErr (excs config.maxRetries)) ∧
    (∀ e, (retryRun config retryable attempts draws).1 = RetryOutcome.raised e →
      retryable e = false) := by
  constructor
  · intro h
    have := retryGo_allfail config retryable attempts draws excs
      config.maxRetries 0 (fun n hn1 hn2 => h n (by omega))
    simpa using this
  · intro e h
    exact retryGo_raised config retryable attempts draws config.maxRetries 0 e h

/-- C10 witness: `retry_exhaustion_wraps_errors` applied at a concrete
config with two retries and attempts that always raise retryable
exception `n + 1`; the caller gets the wrapped error with cause 3. -/
theorem retry_exhaustion_wraps_errors_witness :
    (retryRun ⟨2, 1, 10, 2, false⟩ (fun e => decide (e < 100))
        (fun n => (Except.error (n + 1) : Except PyExc Nat)) (fun _ => 0)).1
      = RetryOutcome.retryErr 3 :=
  (retry_exhaustion_wraps_errors ⟨2, 1, 10, 2, false⟩ (fun e => decide (e < 100))
      (fun n => (Except.error (n + 1) : Except PyExc Nat)) (fun _ => 0)
      (fun n => n + 1)).1
    (fun n hn => ⟨rfl, by
      simp only [decide_eq_true_eq]
      have hn2 : n ≤ 2 := hn
      exact Nat.lt_of_le_of_lt (Nat.succ_le_succ hn2) (by norm_num)⟩)

end RaveDigest
